import Mathlib

/-
  Verification development for the Video-Summary browser extension.

  Shallow embedding of the platform-adapter + hand-off pipeline:
  the AI hand-off bridge (AIBridge), the auto-fill agent, the settings
  migration, the prompt library operations and the per-platform
  transcript extractors, each translated from the JavaScript sources.

  Conventions of the embedding:
  * JS values that may be absent (`undefined` / missing key) are `Option`.
  * JS string falsiness (`""` is falsy) is modelled explicitly where the
    code uses `||` or truthiness tests on strings.
  * Side effects (storage writes, tab opens, DOM injection, clicks) are
    modelled as explicit effect lists in program order.
  * DOM inputs are modelled as lists of abstract node records carrying
    exactly the fields the scraping code reads.
-/

set_option maxHeartbeats 1000000
set_option linter.unusedVariables false

/-- JS `x || d` for an optional string `x`: `null`/`undefined` and the
empty string are falsy and yield the default. -/
def jsOrStr (v : Option String) (d : String) : String :=
  match v with
  | some s => if s = "" then d else s
  | none => d

/-- JS `a || b` where both sides are optional strings (used for
attribute-fallback chains such as `data-start || data-time || ...`). -/
def jsOrO (a b : Option String) : Option String :=
  match a with
  | some s => if s = "" then b else some s
  | none => b

/-- JS `String.prototype.includes` (substring test), as used for
hostname matching in the auto-fill agent. -/
def strContains (s sub : String) : Bool :=
  decide (sub.data <:+: s.data)

/-- JS `String.prototype.trim`: strip whitespace from both ends
(kernel-reducible model). -/
def trimChars (l : List Char) : List Char :=
  ((l.dropWhile Char.isWhitespace).reverse.dropWhile Char.isWhitespace).reverse

/-- `s.trim()` on strings. -/
def jsTrim (s : String) : String := String.mk (trimChars s.data)

/-- `s.substring(0, n)` / `.take n` on strings. -/
def jsTake (s : String) (n : Nat) : String := String.mk (s.data.take n)

/-- Boolean prefix test on character lists (`String.prototype.startsWith`). -/
def isPrefixB : List Char → List Char → Bool
  | [], _ => true
  | _ :: _, [] => false
  | a :: as, b :: bs => a = b && isPrefixB as bs

/- ===================================================================
   Decimal printing and parsing (JS `Number#toString`, `parseInt`)
   =================================================================== -/

/-- Decimal digits, least significant first, by fuel-bounded
structural recursion (the fuel `n` always suffices), so the kernel can
evaluate it. -/
def toDecimalRevFuel : Nat → Nat → List Nat
  | 0, _ => []
  | _ + 1, 0 => []
  | fuel + 1, n + 1 => ((n + 1) % 10) :: toDecimalRevFuel fuel ((n + 1) / 10)

/-- Decimal digits of `n`, least significant first (empty for 0). -/
def toDecimalRev (n : Nat) : List Nat := toDecimalRevFuel n n

/-- Value of a least-significant-first digit list. -/
def decimalVal : List Nat → Nat
  | [] => 0
  | d :: ds => d + 10 * decimalVal ds

/-- The character list a JS integer prints as (`String(n)` / `toString()`). -/
def natToChars (n : Nat) : List Char :=
  if n = 0 then ['0']
  else ((toDecimalRev n).map Nat.digitChar).reverse

/-- JS `String(n)` for a non-negative integer. -/
def natToStr (n : Nat) : String :=
  String.mk (natToChars n)

/-- Numeric value of a decimal digit character. -/
def charDigitVal (c : Char) : Nat := c.toNat - 48

/-- Accumulating decimal parse of a (most-significant-first) digit list. -/
def parseDigitsAcc : List Char → Nat → Nat
  | [], acc => acc
  | c :: cs, acc => parseDigitsAcc cs (acc * 10 + charDigitVal c)

/-- Maximal leading run of decimal digit characters. -/
def leadingDigits : List Char → List Char
  | [] => []
  | c :: cs => if c.isDigit then c :: leadingDigits cs else []

/-- JS `parseInt(s, 10) || 0`: value of the maximal leading digit run,
`0` when there is none (NaN is falsy). -/
def jsParseIntOr0 (l : List Char) : Nat :=
  parseDigitsAcc (leadingDigits l) 0

/-- Read a rendered decimal string back as the integer it denotes. -/
def interpNat (s : String) : Nat :=
  jsParseIntOr0 s.data

/-- JS `String.prototype.padStart(2, "0")`. -/
def padStart2 (l : List Char) : List Char :=
  List.replicate (2 - l.length) '0' ++ l

/-- JS `String.prototype.split(":")` on a character list. -/
def splitOnColon : List Char → List (List Char)
  | [] => [[]]
  | c :: cs =>
    if c = ':' then [] :: splitOnColon cs
    else
      match splitOnColon cs with
      | [] => [[c]]
      | p :: ps => (c :: p) :: ps

/- ===================================================================
   Timestamp conversion (src/src/content/datacamp.js)
   =================================================================== -/

/-- `timestampToSeconds(timestamp)`: split on `:`, `parseInt` each part
with `|| 0`, combine as H:MM:SS or MM:SS, `"0"` otherwise; the falsy
(empty) timestamp returns `"0"` up front.  Returns a decimal string,
as the source does. -/
def timestampToSeconds (timestamp : String) : String :=
  if timestamp = "" then "0"
  else
    let parts := (splitOnColon timestamp.data).map jsParseIntOr0
    match parts with
    | [h, m, s] => natToStr (h * 3600 + m * 60 + s)
    | [m, s] => natToStr (m * 60 + s)
    | _ => "0"

/-- `formatSecondsToTimestamp(seconds)`: renders `H:MM:SS` when an hour
is present, otherwise `M:SS` (minutes unpadded, as in the source). -/
def formatSecondsToTimestamp (seconds : Nat) : String :=
  let hrs := seconds / 3600
  let mins := (seconds % 3600) / 60
  let secs := seconds % 60
  if hrs > 0 then
    String.mk (natToChars hrs ++ ':' :: (padStart2 (natToChars mins) ++ ':' :: padStart2 (natToChars secs)))
  else
    String.mk (natToChars mins ++ ':' :: padStart2 (natToChars secs))

/- ===================================================================
   AIBridge (src/src/core/BasePlatform.js, AIBridge section)
   =================================================================== -/

/-- A value stored under `serviceSettings[service]`: either the legacy
plain model-name string or the new `{model, promptId, autoSubmit}`
object (each field possibly absent). -/
inductive ServiceVal where
  | str (s : String)
  | obj (model : Option String) (promptId : Option String) (autoSubmit : Option Bool)
deriving Repr, DecidableEq

/-- The slice of the persisted settings record that `AIBridge` and the
auto-fill agent read.  Every field may be absent in storage.
`urlOverride k` models the dynamic lookup `settings[`${model}Url`]`. -/
structure BridgeSettings where
  aiMode : Option String
  selectedModel : Option String
  serviceSettings : Option (String → Option ServiceVal)
  autoFillEnabled : Option Bool
  urlOverride : String → Option String

/-- Default AI service URLs (`DEFAULT_AI_URLS`). -/
def DEFAULT_AI_URLS (model : String) : Option String :=
  if model = "chatgpt" then some "https://chatgpt.com/"
  else if model = "gemini" then some "https://gemini.google.com/app"
  else if model = "grok" then some "https://grok.com/"
  else if model = "claude" then some "https://claude.ai/new"
  else none

/-- `AIBridge.shouldOpenTab(settings, serviceName)`: custom mode reads
`serviceSettings[service]?.autoSubmit ?? true`; global mode reads
`autoFillEnabled !== false`. -/
def shouldOpenTab (s : BridgeSettings) (serviceName : String) : Bool :=
  if s.aiMode = some "custom" then
    match s.serviceSettings with
    | some f =>
      match f serviceName with
      | some (ServiceVal.obj _ _ a) => a.getD true
      | _ => true
    | none => true
  else
    if s.autoFillEnabled = some false then false else true

/-- `AIBridge.getActiveModel(settings, serviceName)`. -/
def getActiveModel (s : BridgeSettings) (serviceName : String) : String :=
  if s.aiMode = some "custom" ∧ s.serviceSettings.isSome then
    match s.serviceSettings with
    | some f =>
      match f serviceName with
      | some (ServiceVal.str m) => m
      | some (ServiceVal.obj m _ _) => jsOrStr m "chatgpt"
      | none => jsOrStr none "chatgpt"
    | none => "chatgpt"
  else
    jsOrStr s.selectedModel "chatgpt"

/-- `AIBridge.getTargetUrl(settings, serviceName)`: a truthy
user-configured `${model}Url` wins, else the model default, else the
ChatGPT default. -/
def getTargetUrl (s : BridgeSettings) (serviceName : String) : String :=
  let model := getActiveModel s serviceName
  let customUrl := s.urlOverride (model ++ "Url")
  match customUrl with
  | some u => if u = "" then jsOrStr (DEFAULT_AI_URLS model) (jsOrStr (DEFAULT_AI_URLS "chatgpt") "") else u
  | none => jsOrStr (DEFAULT_AI_URLS model) (jsOrStr (DEFAULT_AI_URLS "chatgpt") "")

/-- Observable side effects of `AIBridge.execute`, in program order. -/
inductive BridgeEffect where
  | setPending (prompt : String) (source : String)
  | openTab (url : String)
deriving Repr, DecidableEq

/-- `AIBridge.execute({prompt, settings, serviceName})`: returns the
`opened` flag together with the ordered list of side effects (the
storage write of the pending record, then the tab open). -/
def AIBridge_execute (prompt : String) (s : BridgeSettings) (serviceName : String) :
    Bool × List BridgeEffect :=
  if shouldOpenTab s serviceName = false then
    (false, [])
  else
    let url := getTargetUrl s serviceName
    (true,
      BridgeEffect.setPending prompt serviceName ::
        (if url = "" then [] else [BridgeEffect.openTab url]))

/- ===================================================================
   Auto-fill agent: the auto-submit decision (src/unnamed/part_004)
   =================================================================== -/

/-- Outcome of the agent's auto-submit decision block: either proceed
to provider detection with a `shouldAutoSubmit` flag, or (global mode
with auto-fill disabled) clear the pending record and stop. -/
inductive AutoSubmitGate where
  | proceed (shouldAutoSubmit : Bool)
  | clearAndStop
deriving Repr, DecidableEq

/-- The decision block of the auto-fill agent: custom mode consults
only `serviceSettings[pendingSource].autoSubmit` (a boolean, else the
hard-coded default `true`); global mode exits early iff
`autoFillEnabled === false`, clearing the pending record. -/
def agentAutoSubmitGate (aiMode : Option String)
    (serviceSettings : Option (String → Option ServiceVal))
    (autoFillEnabled : Option Bool) (pendingSource : String) : AutoSubmitGate :=
  if aiMode = some "custom" then
    AutoSubmitGate.proceed
      (match serviceSettings with
       | some f =>
         match f pendingSource with
         | some (ServiceVal.obj _ _ (some b)) => b
         | _ => true
       | none => true)
  else
    if autoFillEnabled = some false then AutoSubmitGate.clearAndStop
    else AutoSubmitGate.proceed true

/-- The value on which, per the spec, the custom-mode decision must
exclusively depend: `serviceSettings[service].autoSubmit`, defaulting
to `true` when unset. -/
def svcAutoSubmitDefault (serviceSettings : Option (String → Option ServiceVal))
    (service : String) : Bool :=
  match serviceSettings with
  | some f =>
    match f service with
    | some (ServiceVal.obj _ _ (some b)) => b
    | _ => true
  | none => true

/-- Page-side environment a provider fill function runs against:
whether `waitForElement` finds an input within its 10s timeout, and
which editor kind the found element is (attributes the code branches
on), plus whether the provider's send control is findable. -/
structure ProviderEnv where
  inputFound : Bool
  contentEditable : Bool
  isTextarea : Bool
  isProseMirror : Bool
  submitFound : Bool
deriving Repr, DecidableEq

/-- Observable actions of the auto-fill agent, in program order. -/
inductive AgEff where
  | injectText (prompt : String)
  | removePending
  | submitAttempt
  | notifyUser
deriving Repr, DecidableEq

/-- Shared tail of every provider fill function after a successful
injection path: clear the pending record, then (only if
`shouldAutoSubmit`) try the send control, then show a toast. -/
def afterInjectTail (shouldAutoSubmit : Bool) : List AgEff :=
  AgEff.removePending ::
    (if shouldAutoSubmit then [AgEff.submitAttempt, AgEff.notifyUser]
     else [AgEff.notifyUser])

/-- `autoFillGemini(prompt, shouldAutoSubmit)`: rich-editor injection
when the element is contenteditable, else the `execCommand` fallback;
both set `success`, after which the pending record is cleared and
auto-submit optionally attempted. -/
def autoFillGemini (prompt : String) (shouldAutoSubmit : Bool) (env : ProviderEnv) :
    List AgEff :=
  if env.inputFound = false then [AgEff.notifyUser]
  else
    if env.contentEditable then
      AgEff.injectText prompt :: afterInjectTail shouldAutoSubmit
    else
      AgEff.injectText prompt :: afterInjectTail shouldAutoSubmit

/-- `autoFillGrok(prompt, shouldAutoSubmit)`: textarea value assignment
or contenteditable innerText (no injection when neither matches), then
unconditionally clear the pending record and optionally submit. -/
def autoFillGrok (prompt : String) (shouldAutoSubmit : Bool) (env : ProviderEnv) :
    List AgEff :=
  if env.inputFound = false then [AgEff.notifyUser]
  else
    (if env.isTextarea then [AgEff.injectText prompt]
     else if env.contentEditable then [AgEff.injectText prompt]
     else []) ++ afterInjectTail shouldAutoSubmit

/-- `autoFillChatGPT(prompt, shouldAutoSubmit)`: ProseMirror paragraph
insertion or generic contenteditable fallback (no injection when
neither matches), then clear the pending record, then optional submit. -/
def autoFillChatGPT (prompt : String) (shouldAutoSubmit : Bool) (env : ProviderEnv) :
    List AgEff :=
  if env.inputFound = false then [AgEff.notifyUser]
  else
    (if env.isProseMirror then [AgEff.injectText prompt]
     else if env.contentEditable then [AgEff.injectText prompt]
     else []) ++ afterInjectTail shouldAutoSubmit

/-- `autoFillClaude(prompt, shouldAutoSubmit)`: ProseMirror-style or
contenteditable injection, then clear the pending record, then
optional submit. -/
def autoFillClaude (prompt : String) (shouldAutoSubmit : Bool) (env : ProviderEnv) :
    List AgEff :=
  if env.inputFound = false then [AgEff.notifyUser]
  else
    (if env.isProseMirror ∨ env.contentEditable then [AgEff.injectText prompt]
     else []) ++ afterInjectTail shouldAutoSubmit

/-- The storage keys the auto-fill agent reads
(`chrome.storage.local.get([pendingPrompt, pendingSource,
autoFillEnabled, aiMode, serviceSettings])`). -/
structure AgentStorage where
  pendingPrompt : Option String
  pendingSource : Option String
  autoFillEnabled : Option Bool
  aiMode : Option String
  serviceSettings : Option (String → Option ServiceVal)

/-- Remove `pendingPrompt` and `pendingSource` from storage. -/
def clearPending (st : AgentStorage) : AgentStorage :=
  { st with pendingPrompt := none, pendingSource := none }

/-- The page the agent runs on: its hostname and the provider-page
environment for whichever provider matches. -/
structure AgentPage where
  hostname : String
  env : ProviderEnv

/-- Apply the agent's storage effects from a fill-function trace. -/
def applyAgentTrace (st : AgentStorage) (t : List AgEff) : AgentStorage :=
  if AgEff.removePending ∈ t then clearPending st else st

/-- The auto-fill agent's top-level run (the IIFE of the content
script): read the pending record, decide on auto-submit (clearing the
record and stopping in global mode with auto-fill disabled), detect
the provider by hostname inclusion, and run that provider's fill
function; no fallback branch exists for unknown hostnames.  Returns
the final storage state and the trace of actions. -/
def autoFillMain (st : AgentStorage) (page : AgentPage) : AgentStorage × List AgEff :=
  match st.pendingPrompt with
  | none => (st, [])
  | some prompt =>
    let source := jsOrStr st.pendingSource "youtube"
    match agentAutoSubmitGate st.aiMode st.serviceSettings st.autoFillEnabled source with
    | AutoSubmitGate.clearAndStop => (clearPending st, [AgEff.removePending])
    | AutoSubmitGate.proceed shouldAutoSubmit =>
      if strContains page.hostname "gemini.google.com" then
        let t := autoFillGemini prompt shouldAutoSubmit page.env
        (applyAgentTrace st t, t)
      else if strContains page.hostname "grok.com" then
        let t := autoFillGrok prompt shouldAutoSubmit page.env
        (applyAgentTrace st t, t)
      else if strContains page.hostname "chatgpt.com" then
        let t := autoFillChatGPT prompt shouldAutoSubmit page.env
        (applyAgentTrace st t, t)
      else if strContains page.hostname "claude.ai" then
        let t := autoFillClaude prompt shouldAutoSubmit page.env
        (applyAgentTrace st t, t)
      else (st, [])

/-- Every injection in a trace is immediately followed by the pending
record removal (`clear right after successful injection`). -/
def clearedRightAfterInject : List AgEff → Bool
  | [] => true
  | AgEff.injectText _ :: rest =>
    match rest with
    | AgEff.removePending :: r => clearedRightAfterInject r
    | _ => false
  | _ :: rest => clearedRightAfterInject rest

/-- No auto-submit attempt happens before the pending record has been
removed. -/
def removeBeforeSubmit : List AgEff → Bool
  | [] => true
  | AgEff.submitAttempt :: _ => false
  | AgEff.removePending :: _ => true
  | _ :: rest => removeBeforeSubmit rest

/- ===================================================================
   Settings schema and migration (src/src/utils/storage.js)
   =================================================================== -/

/-- A prompt-library entry. -/
structure PromptEntry where
  id : String
  name : String
  description : String
  content : String
deriving Repr, DecidableEq

/-- Fixed record over the four supported services. -/
structure ServiceMap (α : Type) where
  youtube : α
  udemy : α
  coursera : α
  datacamp : α
deriving Repr, DecidableEq

/-- New-format per-service settings object. -/
structure NewServiceSetting where
  model : String
  promptId : String
  autoSubmit : Bool
deriving Repr, DecidableEq

/-- The full new-format settings record (`DEFAULT_SETTINGS` shape). -/
structure Settings where
  aiMode : String
  selectedModel : String
  globalPromptId : String
  serviceSettings : ServiceMap NewServiceSetting
  prompts : List PromptEntry
  geminiUrl : String
  theme : String
  copyFormat : String
  showButton : Bool
  autoFillEnabled : Bool
deriving Repr, DecidableEq

/-- `DEFAULT_PROMPT_CONTENT` (storage.js). -/
def DEFAULT_PROMPT_CONTENT : String :=
  "Please summarize the following video:\n\nTitle: \x7b\x7bTitle\x7d\x7d\nURL: \x7b\x7bURL\x7d\x7d\n\nTranscript:\n\x7b\x7bTranscript\x7d\x7d\n\nProvide a concise summary with key points."

/-- The built-in default prompt-library entry. -/
def defaultPromptEntry : PromptEntry :=
  { id := "default"
    name := "Default Summary"
    description := "Standard summary template"
    content := DEFAULT_PROMPT_CONTENT }

/-- `DEFAULT_SETTINGS` (storage.js). -/
def DEFAULT_SETTINGS : Settings :=
  { aiMode := "global"
    selectedModel := "chatgpt"
    globalPromptId := "default"
    serviceSettings :=
      { youtube := { model := "chatgpt", promptId := "default", autoSubmit := true }
        udemy := { model := "chatgpt", promptId := "default", autoSubmit := true }
        coursera := { model := "chatgpt", promptId := "default", autoSubmit := true }
        datacamp := { model := "chatgpt", promptId := "default", autoSubmit := true } }
    prompts := [defaultPromptEntry]
    geminiUrl := "https://gemini.google.com/app"
    theme := "auto"
    copyFormat := "markdown"
    showButton := true
    autoFillEnabled := true }

/-- A legacy stored record as `migrateSettings(oldData)` receives it:
the `prompts` field is absent (that is the migration trigger) and every
other field may be present or not.  `serviceSettings` holds the legacy
per-service values (string model name or partial object). -/
structure OldData where
  aiMode : Option String
  selectedModel : Option String
  geminiUrl : Option String
  theme : Option String
  copyFormat : Option String
  showButton : Option Bool
  autoFillEnabled : Option Bool
  customPrompt : Option String
  serviceSettings : Option (ServiceMap (Option ServiceVal))

/-- Per-service step of the migration: legacy string means model name;
an object keeps an explicitly-set boolean `autoSubmit`, every other
shape falls back to the old global default. -/
def migrateServiceVal (oldVal : Option ServiceVal) (targetPromptId : String)
    (defaultAutoSubmit : Bool) : NewServiceSetting :=
  let model :=
    match oldVal with
    | some (ServiceVal.str s) => s
    | some (ServiceVal.obj m _ _) => jsOrStr m "chatgpt"
    | none => "chatgpt"
  let autoSubmit :=
    match oldVal with
    | some (ServiceVal.obj _ _ (some b)) => b
    | _ => defaultAutoSubmit
  { model := model, promptId := targetPromptId, autoSubmit := autoSubmit }

/-- `migrateSettings(oldData)` (storage.js): start from the defaults,
copy the seven previously-set scalar keys, rebuild the prompt library
(default entry plus the legacy custom prompt when it truthily differs
from the default, under a generated `legacy-prompt-` id), and rebuild
the four service settings pointing at the migrated prompt.  `idSeed`
stands for the nondeterministic `generateId()` output. -/
def migrateSettings (oldData : OldData) (idSeed : String) : Settings :=
  let base := DEFAULT_SETTINGS
  let withScalars :=
    { base with
      aiMode := (oldData.aiMode).getD base.aiMode
      selectedModel := (oldData.selectedModel).getD base.selectedModel
      geminiUrl := (oldData.geminiUrl).getD base.geminiUrl
      theme := (oldData.theme).getD base.theme
      copyFormat := (oldData.copyFormat).getD base.copyFormat
      showButton := (oldData.showButton).getD base.showButton
      autoFillEnabled := (oldData.autoFillEnabled).getD base.autoFillEnabled }
  let legacyContent := jsOrStr oldData.customPrompt DEFAULT_PROMPT_CONTENT
  let legacyId := "legacy-prompt-" ++ jsTake idSeed 8
  let differs := jsTrim legacyContent ≠ jsTrim DEFAULT_PROMPT_CONTENT
  let prompts :=
    if differs then
      [defaultPromptEntry,
       { id := legacyId
         name := "My Custom Prompt"
         description := "Migrated from previous version"
         content := legacyContent }]
    else [defaultPromptEntry]
  let targetPromptId := if differs then legacyId else "default"
  let oldServices := (oldData.serviceSettings).getD
    { youtube := none, udemy := none, coursera := none, datacamp := none }
  let defaultAutoSubmit := oldData.autoFillEnabled ≠ some false
  { withScalars with
    prompts := prompts
    serviceSettings :=
      { youtube := migrateServiceVal oldServices.youtube targetPromptId defaultAutoSubmit
        udemy := migrateServiceVal oldServices.udemy targetPromptId defaultAutoSubmit
        coursera := migrateServiceVal oldServices.coursera targetPromptId defaultAutoSubmit
        datacamp := migrateServiceVal oldServices.datacamp targetPromptId defaultAutoSubmit } }

/- ===================================================================
   Prompt library deletion (options page, deletePrompt)
   =================================================================== -/

/-- Outcome tag of a `deletePrompt()` invocation. -/
inductive DeleteOutcome where
  | noSelection
  | rejectedSole
  | cancelled
  | deleted
deriving Repr, DecidableEq

/-- Reset a service mapping to `default` when it referenced the
deleted prompt id. -/
def resetMapping (sel : String) (s : NewServiceSetting) : NewServiceSetting :=
  if s.promptId = sel then { s with promptId := "default" } else s

/-- `deletePrompt()` (options page): no-op without a selection; reject
when at most one prompt exists; respect the confirm dialog; otherwise
filter the prompt out and reset every service mapping that referenced
it to `default`.  Returns the outcome with the updated prompt list and
service mappings. -/
def deletePrompt (prompts : List PromptEntry) (svc : ServiceMap NewServiceSetting)
    (selectedPromptId : Option String) (confirmAnswer : Bool) :
    DeleteOutcome × List PromptEntry × ServiceMap NewServiceSetting :=
  match selectedPromptId with
  | none => (DeleteOutcome.noSelection, prompts, svc)
  | some sel =>
    if prompts.length ≤ 1 then (DeleteOutcome.rejectedSole, prompts, svc)
    else if confirmAnswer = false then (DeleteOutcome.cancelled, prompts, svc)
    else
      (DeleteOutcome.deleted,
       prompts.filter (fun p => p.id ≠ sel),
       { youtube := resetMapping sel svc.youtube
         udemy := resetMapping sel svc.udemy
         coursera := resetMapping sel svc.coursera
         datacamp := resetMapping sel svc.datacamp })

/- ===================================================================
   Transcript extractors (src/src/content/datacamp.js)
   =================================================================== -/

/-- One produced transcript item: ordinal index, display timestamp,
text, and the derived start offset (kept as a decimal string, as the
source does). -/
structure TranscriptItem where
  index : Nat
  timestamp : String
  text : String
  start : String
deriving Repr, DecidableEq

/-- Derived start-offset-in-seconds of an item. -/
def itemStartNat (it : TranscriptItem) : Nat := interpNat it.start

/-- The deduplication key of an item: timestamp plus the first 50
characters of the text (the YouTube extractor's `seenMap` key). -/
def itemKey (it : TranscriptItem) : String :=
  it.timestamp ++ "|" ++ jsTake it.text 50

/-- Boolean check that a sequence is sorted non-decreasing by derived
start offset. -/
def sortedByStartB : List TranscriptItem → Bool
  | [] => true
  | [_] => true
  | a :: b :: r => decide (itemStartNat a ≤ itemStartNat b) && sortedByStartB (b :: r)

/-- One `ytd-transcript-segment-renderer` node as the YouTube scraper
reads it: the `.segment-timestamp` text and the `.segment-text` text,
each absent when the selector finds nothing. -/
structure YtSegment where
  timestampText : Option String
  segText : Option String
deriving Repr, DecidableEq

/-- Trimmed `(timestamp, text)` fields the scraper computes per
segment (empty string when the sub-element is missing). -/
def ytSegFields (seg : YtSegment) : String × String :=
  ((match seg.timestampText with | some t => jsTrim t | none => ""),
   (match seg.segText with | some t => jsTrim t | none => ""))

/-- `seenMap` key: `` `${timestamp}|${text.substring(0, 50)}` ``. -/
def ytKey (timestamp text : String) : String :=
  timestamp ++ "|" ++ jsTake text 50

/-- The key a segment contributes, when its text is non-empty. -/
def ytSegKey (seg : YtSegment) : Option String :=
  let f := ytSegFields seg
  if f.2 = "" then none else some (ytKey f.1 f.2)

/-- Pre-sort item data held in the `seenMap`. -/
structure YtRaw where
  timestamp : String
  text : String
  start : Nat
deriving Repr, DecidableEq

/-- One segment step of the `seenMap` build: skip empty texts, keep
only the first occurrence of each key; `start` is
`parseFloat(timestampToSeconds(timestamp)) || 0`. -/
def ytSeenStep (acc : List (String × YtRaw)) (seg : YtSegment) : List (String × YtRaw) :=
  let f := ytSegFields seg
  if f.2 = "" then acc
  else
    let key := ytKey f.1 f.2
    if key ∈ acc.map Prod.fst then acc
    else acc ++ [(key,
      { timestamp := f.1, text := f.2,
        start := interpNat (timestampToSeconds f.1) })]

/-- The insertion-ordered `seenMap` (key, value) pairs. -/
def ytSeenFold (segs : List YtSegment) : List (String × YtRaw) :=
  segs.foldl ytSeenStep []

/-- Comparator of the YouTube sort (`(a, b) => a.start - b.start`). -/
def ytStartLe (a b : YtRaw) : Prop := a.start ≤ b.start

instance : DecidableRel ytStartLe := fun a b => Nat.decLe a.start b.start

instance : IsTotal YtRaw ytStartLe := ⟨fun a b => Nat.le_total a.start b.start⟩

instance : IsTrans YtRaw ytStartLe := ⟨fun _ _ _ hab hbc => Nat.le_trans hab hbc⟩

/-- The final `.map((item, index) => ...)` renumbering pass: ordinal
index and stringified start. -/
def indexItems : Nat → List YtRaw → List TranscriptItem
  | _, [] => []
  | i, r :: rs =>
    { index := i, timestamp := r.timestamp, text := r.text, start := natToStr r.start } ::
      indexItems (i + 1) rs

/-- `getRawTranscriptFromDom()` (YouTube): scrape the currently
rendered segments of the visible container, deduplicate through the
`seenMap`, sort ascending by start seconds (stable JS sort), and
renumber.  The source skips the scroll phase entirely (`EXPERIMENTAL:
Skip scrolling`); the segment list is whatever the container holds
without scrolling. -/
def getRawTranscriptFromDom (segs : List YtSegment) : List TranscriptItem :=
  let raws := (ytSeenFold segs).map Prod.snd
  indexItems 0 (List.insertionSort ytStartLe raws)

/-- One Udemy transcript cue node: the data attributes and descendant
texts the scraper reads. -/
structure UdemyCue where
  dataStart : Option String
  dataTime : Option String
  dataPurpose : Option String
  timestampElText : Option String
  textElText : Option String
  fullText : String
deriving Repr, DecidableEq

/-- First run of consecutive digits in a string (`.match(/\d+/)?.[0]`). -/
def firstDigitRun : List Char → Option (List Char)
  | [] => none
  | c :: cs => if c.isDigit then some (c :: leadingDigits cs) else firstDigitRun cs

/-- Anchored test `/^\d{1,2}:\d{2}(:\d{2})?$/` used by the Udemy
scraper to validate a timestamp-looking text. -/
def matchTimestampRe (l : List Char) : Bool :=
  match l with
  | [a, ':', c, d] => a.isDigit && c.isDigit && d.isDigit
  | [a, b, ':', c, d] => a.isDigit && b.isDigit && c.isDigit && d.isDigit
  | [a, ':', c, d, ':', e, f] => a.isDigit && c.isDigit && d.isDigit && e.isDigit && f.isDigit
  | [a, b, ':', c, d, ':', e, f] =>
    a.isDigit && b.isDigit && c.isDigit && d.isDigit && e.isDigit && f.isDigit
  | _ => false

/-- Split on whitespace characters (auxiliary for `collapseWs`). -/
def splitWsChars : List Char → List (List Char)
  | [] => [[]]
  | c :: cs =>
    if c.isWhitespace then [] :: splitWsChars cs
    else
      match splitWsChars cs with
      | [] => [[c]]
      | p :: ps => (c :: p) :: ps

/-- Join words with single spaces (auxiliary for `collapseWs`). -/
def joinWithSpace : List (List Char) → List Char
  | [] => []
  | [w] => w
  | w :: ws => w ++ ' ' :: joinWithSpace ws

/-- JS `.replace(/\s+/g, " ").trim()`: collapse whitespace runs and
strip the ends. -/
def collapseWs (s : String) : String :=
  String.mk (joinWithSpace ((splitWsChars s.data).filter (fun w => w ≠ [])))

/-- `getRawUdemyTranscriptFromDom()` per-cue step: timestamp from a
validated timestamp element else from a parseable data attribute;
text from the text element else the cue text with a leading timestamp
stripped; whitespace collapsed; empty text skipped.  Items are pushed
in DOM order — there is no sort.  The object literal evaluates
`index++` before the synthesized-timestamp fields, so estimates use
the incremented index. -/
def udemyCueStep (state : List TranscriptItem × Nat) (cue : UdemyCue) :
    List TranscriptItem × Nat :=
  let dataTime :=
    jsOrO cue.dataStart
      (jsOrO cue.dataTime
        ((cue.dataPurpose).bind (fun p => (firstDigitRun p.data).map String.mk)))
  let ts1 :=
    match cue.timestampElText with
    | some t => if matchTimestampRe (jsTrim t).data then jsTrim t else ""
    | none => ""
  let timestamp :=
    if ts1 = "" then
      match dataTime with
      | some d =>
        if leadingDigits d.data = [] then ""
        else formatSecondsToTimestamp (jsParseIntOr0 d.data)
      | none => ""
    else ts1
  let text0 :=
    match cue.textElText with
    | some t => jsTrim t
    | none =>
      let t := jsTrim cue.fullText
      if timestamp ≠ "" ∧ isPrefixB timestamp.data t.data = true then
        jsTrim (String.mk (t.data.drop timestamp.data.length))
      else t
  let text := collapseWs text0
  if text = "" then state
  else
    let idx := state.2
    (state.1 ++
      [{ index := idx
         timestamp := if timestamp = "" then formatSecondsToTimestamp ((idx + 1) * 5) else timestamp
         text := text
         start := if timestamp = "" then natToStr ((idx + 1) * 5) else timestampToSeconds timestamp }],
     idx + 1)

/-- `getRawUdemyTranscriptFromDom()` (Udemy): process the found cues
in DOM order; no deduplication and no sort. -/
def getRawUdemyTranscriptFromDom (cues : List UdemyCue) : List TranscriptItem :=
  (cues.foldl udemyCueStep ([], 0)).1

/-- One `span.rc-Phrase` node of a Coursera paragraph: the visible
inner span text (when the selector matches) and the phrase text. -/
structure CourseraPhrase where
  visibleText : Option String
  fullText : String
deriving Repr, DecidableEq

/-- One `div.rc-Paragraph` node: the `button.timestamp` text (absent
when the button is missing) and the phrase nodes. -/
structure CourseraParagraph where
  timestampBtnText : Option String
  phrases : List CourseraPhrase
deriving Repr, DecidableEq

/-- Greedy match of `/\d{1,2}:\d{2}(:\d{2})?/` at the head of the
list, returning the matched length (regex backtracking: two-digit
hour preferred, optional seconds group preferred). -/
def tsTryLen (l : List Char) : Option Nat :=
  match l with
  | a :: b :: rest =>
    if a.isDigit && b.isDigit then
      match rest with
      | ':' :: c :: d :: rest2 =>
        if c.isDigit && d.isDigit then
          match rest2 with
          | ':' :: e :: f :: _ =>
            if e.isDigit && f.isDigit then some 8 else some 5
          | _ => some 5
        else none
      | _ => none
    else if a.isDigit && (b = ':') then
      match rest with
      | c :: d :: rest2 =>
        if c.isDigit && d.isDigit then
          match rest2 with
          | ':' :: e :: f :: _ =>
            if e.isDigit && f.isDigit then some 7 else some 4
          | _ => some 4
        else none
      | _ => none
    else none
  | _ => none

/-- Leftmost match of `/\d{1,2}:\d{2}(:\d{2})?/` in a string
(`String.prototype.match`, first match). -/
def firstTsMatch : List Char → Option (List Char)
  | [] => none
  | c :: tl =>
    match tsTryLen (c :: tl) with
    | some n => some ((c :: tl).take n)
    | none => firstTsMatch tl

/-- Replace non-breaking spaces (U+00A0) by plain spaces
(`.replace(/u00a0/g, " ")` in the source). -/
def nbspToSpace (s : String) : String :=
  String.mk (s.data.map (fun c => if c = '\u00A0' then ' ' else c))

/-- Cleanup applied to each Coursera phrase text. -/
def courseraCleanText (t : String) : String :=
  collapseWs (nbspToSpace (jsTrim t))

/-- `getRawCourseraTranscriptFromDom()` per-paragraph step: timestamp
is the first `\d{1,2}:\d{2}(:\d{2})?` match of the trimmed button
text; the paragraph text concatenates each phrase's visible (or full)
cleaned text plus a space, then trims; empty paragraphs are skipped.
Items are pushed in DOM order — no deduplication and no sort.  As in
the Udemy scraper, `index++` precedes the estimate fields. -/
def courseraParagraphStep (state : List TranscriptItem × Nat) (par : CourseraParagraph) :
    List TranscriptItem × Nat :=
  let timestamp :=
    match par.timestampBtnText with
    | some bt =>
      match firstTsMatch (jsTrim bt).data with
      | some m => String.mk m
      | none => ""
    | none => ""
  let paragraphText :=
    jsTrim (String.mk (List.flatten (par.phrases.map (fun ph =>
      (courseraCleanText (match ph.visibleText with | some v => v | none => ph.fullText)).data
        ++ [' ']))))
  if paragraphText = "" then state
  else
    let idx := state.2
    (state.1 ++
      [{ index := idx
         timestamp := if timestamp = "" then formatSecondsToTimestamp ((idx + 1) * 30) else timestamp
         text := paragraphText
         start := if timestamp = "" then natToStr ((idx + 1) * 30) else timestampToSeconds timestamp }],
     idx + 1)

/-- `getRawCourseraTranscriptFromDom()` (Coursera). -/
def getRawCourseraTranscriptFromDom (pars : List CourseraParagraph) : List TranscriptItem :=
  (pars.foldl courseraParagraphStep ([], 0)).1

/- ===================================================================
   YouTube lazy-load scroll loop (scrollToLoadAllSegments)
   =================================================================== -/

/-- Environment of the scroll loop: the container's client height and
the scroll height observed during iteration `i` (lazy loading may grow
it between iterations). -/
structure ScrollEnv where
  clientHeight : Nat
  heights : Nat → Nat

/-- Loop state: current scroll position, `previousScrollHeight`, and
`stableRounds`. -/
structure ScrollSt where
  scrollTop : Nat
  prevHeight : Nat
  stableRounds : Nat
deriving Repr, DecidableEq

/-- One iteration of the scroll loop: scroll down one viewport
(clamped by the browser to `scrollHeight - clientHeight`), check
`atBottom` with the 20px tolerance, update `stableRounds` (three
consecutive unchanged heights at the bottom break the loop), and
record `previousScrollHeight`.  Returns whether the loop `break`s. -/
def scrollStep (env : ScrollEnv) (i : Nat) (st : ScrollSt) : Bool × ScrollSt :=
  let h := env.heights i
  let top := min (st.scrollTop + env.clientHeight) (h - env.clientHeight)
  let atBottom := h ≤ top + env.clientHeight + 20
  if atBottom then
    if h = st.prevHeight then
      let s2 := st.stableRounds + 1
      if 3 ≤ s2 then
        (true, { scrollTop := top, prevHeight := st.prevHeight, stableRounds := s2 })
      else
        (false, { scrollTop := top, prevHeight := h, stableRounds := s2 })
    else (false, { scrollTop := top, prevHeight := h, stableRounds := 0 })
  else (false, { scrollTop := top, prevHeight := h, stableRounds := st.stableRounds })

/-- Run the scroll loop with the given remaining fuel, counting
executed iterations. -/
def scrollRun (env : ScrollEnv) : ScrollSt → Nat → Nat → Nat × ScrollSt
  | st, iters, 0 => (iters, st)
  | st, iters, fuel + 1 =>
    match scrollStep env iters st with
    | (true, st2) => (iters + 1, st2)
    | (false, st2) => scrollRun env st2 (iters + 1) fuel

/-- `scrollToLoadAllSegments()`: the bounded scroll loop with
`maxScrollAttempts = 500`, starting unscrolled with
`previousScrollHeight = 0` and `stableRounds = 0`.  Returns the number
of iterations executed and the final state.  (Defined in the source
but never invoked: `getRawTranscriptFromDom` skips it.) -/
def scrollToLoadAllSegments (env : ScrollEnv) : Nat × ScrollSt :=
  scrollRun env { scrollTop := 0, prevHeight := 0, stableRounds := 0 } 0 500

/-- A YouTube transcript DOM whose rendered segment list depends on
scrolling: `initialSegments` is what the container holds on page
state as-is, `segmentsAfterFullScroll` what it would hold after the
lazy-load scroll completed. -/
structure YtDom where
  initialSegments : List YtSegment
  segmentsAfterFullScroll : List YtSegment
deriving Repr, DecidableEq

/-- What the code does on such a DOM: `getRawTranscriptFromDom` takes
the segments currently in the container, without scrolling. -/
def ytExtractOnDom (dom : YtDom) : List TranscriptItem :=
  getRawTranscriptFromDom dom.initialSegments

/-- Modelled from the spec: the spec states the YouTube extractor
"performs incremental scroll-to-bottom of the transcript's virtualized
list to force lazy-loaded segments to materialize" before scraping, so
it would scrape the fully-materialized segment list. -/
def ytExtractSpecScrollFirst (dom : YtDom) : List TranscriptItem :=
  getRawTranscriptFromDom dom.segmentsAfterFullScroll

/- ===================================================================
   Lemmas: decimal print/parse round trip
   =================================================================== -/

theorem decimalVal_toDecimalRevFuel :
    ∀ (fuel n : Nat), n ≤ fuel → decimalVal (toDecimalRevFuel fuel n) = n := by
  intro fuel
  induction fuel with
  | zero =>
    intro n h
    have hz : n = 0 := by omega
    subst hz
    rfl
  | succ f ih =>
    intro n h
    match n with
    | 0 => rfl
    | m + 1 =>
      rw [toDecimalRevFuel, decimalVal, ih ((m + 1) / 10) (by omega)]
      omega

theorem decimalVal_toDecimalRev (n : Nat) : decimalVal (toDecimalRev n) = n :=
  decimalVal_toDecimalRevFuel n n (Nat.le_refl n)

theorem toDecimalRevFuel_lt_ten :
    ∀ (fuel n : Nat), ∀ d ∈ toDecimalRevFuel fuel n, d < 10 := by
  intro fuel
  induction fuel with
  | zero => intro n d hd; simp [toDecimalRevFuel] at hd
  | succ f ih =>
    intro n d hd
    match n with
    | 0 => simp [toDecimalRevFuel] at hd
    | m + 1 =>
      rw [toDecimalRevFuel] at hd
      rcases List.mem_cons.mp hd with h1 | h2
      · omega
      · exact ih ((m + 1) / 10) d h2

theorem toDecimalRev_lt_ten (n : Nat) : ∀ d ∈ toDecimalRev n, d < 10 :=
  toDecimalRevFuel_lt_ten n n

theorem charDigitVal_digitChar : ∀ d, d < 10 → charDigitVal (Nat.digitChar d) = d := by
  decide

theorem digitChar_isDigit : ∀ d, d < 10 → (Nat.digitChar d).isDigit = true := by
  decide

theorem digitChar_ne_colon : ∀ d, d < 10 → Nat.digitChar d ≠ ':' := by
  decide

theorem parseDigitsAcc_append (a b : List Char) (acc : Nat) :
    parseDigitsAcc (a ++ b) acc = parseDigitsAcc b (parseDigitsAcc a acc) := by
  induction a generalizing acc with
  | nil => rfl
  | cons c cs ih =>
    rw [List.cons_append, parseDigitsAcc, parseDigitsAcc]
    exact ih _

theorem parseDigitsAcc_rev_digits (ds : List Nat) (hd : ∀ d ∈ ds, d < 10) (acc : Nat) :
    parseDigitsAcc ((ds.map Nat.digitChar).reverse) acc = acc * 10 ^ ds.length + decimalVal ds := by
  induction ds generalizing acc with
  | nil => simp [parseDigitsAcc, decimalVal]
  | cons d ds ih =>
    have hlt : d < 10 := hd d (List.mem_cons_self d ds)
    have htail : ∀ x ∈ ds, x < 10 := fun x hx => hd x (List.mem_cons_of_mem d hx)
    simp only [List.map_cons, List.reverse_cons, parseDigitsAcc_append, ih htail]
    simp only [parseDigitsAcc, charDigitVal_digitChar d hlt, decimalVal, List.length_cons]
    ring

theorem parseDigitsAcc_natToChars (n : Nat) : parseDigitsAcc (natToChars n) 0 = n := by
  unfold natToChars
  split
  · rename_i h
    subst h
    decide
  · rw [parseDigitsAcc_rev_digits (toDecimalRev n) (toDecimalRev_lt_ten n) 0,
        decimalVal_toDecimalRev]
    simp

theorem natToChars_digits (n : Nat) : ∀ c ∈ natToChars n, c.isDigit = true := by
  unfold natToChars
  split
  · intro c hc
    simp at hc
    subst hc
    decide
  · intro c hc
    simp only [List.mem_reverse, List.mem_map] at hc
    obtain ⟨d, hd, rfl⟩ := hc
    exact digitChar_isDigit d (toDecimalRev_lt_ten n d hd)

theorem padStart2_digits (l : List Char) (h : ∀ c ∈ l, c.isDigit = true) :
    ∀ c ∈ padStart2 l, c.isDigit = true := by
  intro c hc
  rcases List.mem_append.mp hc with h1 | h2
  · have := List.eq_of_mem_replicate h1
    subst this
    decide
  · exact h c h2

theorem digit_ne_colon (c : Char) (h : c.isDigit = true) : c ≠ ':' := by
  intro hc
  subst hc
  simp [Char.isDigit] at h

theorem parseDigitsAcc_padStart2 (l : List Char) :
    parseDigitsAcc (padStart2 l) 0 = parseDigitsAcc l 0 := by
  unfold padStart2
  generalize 2 - l.length = k
  induction k with
  | zero => simp
  | succ m ih => simpa [List.replicate_succ, parseDigitsAcc, charDigitVal] using ih

theorem leadingDigits_all_digits (l : List Char) (h : ∀ c ∈ l, c.isDigit = true) :
    leadingDigits l = l := by
  induction l with
  | nil => rfl
  | cons c cs ih =>
    simp only [leadingDigits, h c (List.mem_cons_self c cs), if_true]
    rw [ih (fun x hx => h x (List.mem_cons_of_mem c hx))]

theorem jsParseIntOr0_digits (l : List Char) (h : ∀ c ∈ l, c.isDigit = true) :
    jsParseIntOr0 l = parseDigitsAcc l 0 := by
  unfold jsParseIntOr0
  rw [leadingDigits_all_digits l h]

theorem interpNat_natToStr (n : Nat) : interpNat (natToStr n) = n := by
  unfold interpNat natToStr
  rw [jsParseIntOr0_digits _ (natToChars_digits n), parseDigitsAcc_natToChars]

theorem splitOnColon_append (a b : List Char) (h : ∀ c ∈ a, c ≠ ':') :
    splitOnColon (a ++ ':' :: b) = a :: splitOnColon b := by
  induction a with
  | nil => simp [splitOnColon]
  | cons c cs ih =>
    have hc : c ≠ ':' := h c (List.mem_cons_self c cs)
    have htail : ∀ x ∈ cs, x ≠ ':' := fun x hx => h x (List.mem_cons_of_mem c hx)
    simp only [List.cons_append, splitOnColon, if_neg hc, List.append_eq, ih htail]

theorem splitOnColon_no_colon (l : List Char) (h : ∀ c ∈ l, c ≠ ':') :
    splitOnColon l = [l] := by
  induction l with
  | nil => rfl
  | cons c cs ih =>
    have hc : c ≠ ':' := h c (List.mem_cons_self c cs)
    have htail : ∀ x ∈ cs, x ≠ ':' := fun x hx => h x (List.mem_cons_of_mem c hx)
    simp only [splitOnColon, if_neg hc, ih htail]

theorem natToChars_ne_nil (n : Nat) : natToChars n ≠ [] := by
  unfold natToChars
  split
  · simp
  · rename_i h
    intro hc
    rw [List.reverse_eq_nil_iff, List.map_eq_nil_iff] at hc
    match n, h with
    | m + 1, _ => simp [toDecimalRev, toDecimalRevFuel] at hc

theorem natToChars_no_colon (n : Nat) : ∀ c ∈ natToChars n, c ≠ ':' :=
  fun c hc => digit_ne_colon c (natToChars_digits n c hc)

theorem padStart2_no_colon (l : List Char) (h : ∀ c ∈ l, c.isDigit = true) :
    ∀ c ∈ padStart2 l, c ≠ ':' :=
  fun c hc => digit_ne_colon c (padStart2_digits l h c hc)

theorem jsParseIntOr0_natToChars (n : Nat) : jsParseIntOr0 (natToChars n) = n := by
  rw [jsParseIntOr0_digits _ (natToChars_digits n), parseDigitsAcc_natToChars]

theorem jsParseIntOr0_pad2_natToChars (n : Nat) :
    jsParseIntOr0 (padStart2 (natToChars n)) = n := by
  rw [jsParseIntOr0_digits _ (padStart2_digits _ (natToChars_digits n)),
      parseDigitsAcc_padStart2, parseDigitsAcc_natToChars]

theorem timestampToSeconds_three (A B C : List Char)
    (hA : ∀ c ∈ A, c.isDigit = true) (hB : ∀ c ∈ B, c.isDigit = true)
    (hC : ∀ c ∈ C, c.isDigit = true) (hAne : A ≠ []) :
    timestampToSeconds (String.mk (A ++ ':' :: (B ++ ':' :: C)))
      = natToStr (jsParseIntOr0 A * 3600 + jsParseIntOr0 B * 60 + jsParseIntOr0 C) := by
  have hne : String.mk (A ++ ':' :: (B ++ ':' :: C)) ≠ "" := by
    intro hcontra
    have h2 : A ++ ':' :: (B ++ ':' :: C) = [] := congrArg String.data hcontra
    cases A <;> simp_all
  unfold timestampToSeconds
  rw [if_neg hne]
  have hdata : (String.mk (A ++ ':' :: (B ++ ':' :: C))).data
      = A ++ ':' :: (B ++ ':' :: C) := rfl
  rw [hdata,
      splitOnColon_append A _ (fun c hc => digit_ne_colon c (hA c hc)),
      splitOnColon_append B _ (fun c hc => digit_ne_colon c (hB c hc)),
      splitOnColon_no_colon C (fun c hc => digit_ne_colon c (hC c hc))]
  rfl

theorem timestampToSeconds_two (B C : List Char)
    (hB : ∀ c ∈ B, c.isDigit = true) (hC : ∀ c ∈ C, c.isDigit = true) (hBne : B ≠ []) :
    timestampToSeconds (String.mk (B ++ ':' :: C))
      = natToStr (jsParseIntOr0 B * 60 + jsParseIntOr0 C) := by
  have hne : String.mk (B ++ ':' :: C) ≠ "" := by
    intro hcontra
    have h2 : B ++ ':' :: C = [] := congrArg String.data hcontra
    cases B <;> simp_all
  unfold timestampToSeconds
  rw [if_neg hne]
  have hdata : (String.mk (B ++ ':' :: C)).data = B ++ ':' :: C := rfl
  rw [hdata,
      splitOnColon_append B _ (fun c hc => digit_ne_colon c (hB c hc)),
      splitOnColon_no_colon C (fun c hc => digit_ne_colon c (hC c hc))]
  rfl

theorem timestampToSeconds_format (n : Nat) :
    timestampToSeconds (formatSecondsToTimestamp n) = natToStr n := by
  unfold formatSecondsToTimestamp
  by_cases hh : 0 < n / 3600
  · rw [if_pos hh,
        timestampToSeconds_three _ _ _ (natToChars_digits _)
          (padStart2_digits _ (natToChars_digits _)) (padStart2_digits _ (natToChars_digits _))
          (natToChars_ne_nil _),
        jsParseIntOr0_natToChars, jsParseIntOr0_pad2_natToChars, jsParseIntOr0_pad2_natToChars]
    congr 1
    omega
  · rw [if_neg hh,
        timestampToSeconds_two _ _ (natToChars_digits _)
          (padStart2_digits _ (natToChars_digits _)) (natToChars_ne_nil _),
        jsParseIntOr0_natToChars, jsParseIntOr0_pad2_natToChars]
    congr 1
    omega

/-- C5 — Timestamp round-trip: for every integer `n` with
`0 ≤ n ≤ 359999`, parsing the rendered timestamp recovers `n`:
`timestampToSeconds (formatSecondsToTimestamp n)`, interpreted as an
integer, equals `n`. -/
theorem timestamp_round_trip (n : Nat) (hn : n ≤ 359999) :
    interpNat (timestampToSeconds (formatSecondsToTimestamp n)) = n := by
  rw [timestampToSeconds_format, interpNat_natToStr]

/-- Witness for C5 at `n = 3725` (rendered `1:02:05`). -/
theorem timestamp_round_trip_witness :
    3725 ≤ 359999 ∧ interpNat (timestampToSeconds (formatSecondsToTimestamp 3725)) = 3725 :=
  ⟨by norm_num, timestamp_round_trip 3725 (by norm_num)⟩

/-- C1 — Strict custom-mode isolation: with `aiMode = custom`, both
`AIBridge.shouldOpenTab` and the auto-fill agent's auto-submit
decision equal `serviceSettings[service].autoSubmit` (default `true`
when unset), and both are invariant under replacing the global
`autoFillEnabled` flag by any other value. -/
theorem custom_mode_isolation (s : BridgeSettings) (svc : String) (x : Option Bool)
    (h : s.aiMode = some "custom") :
    shouldOpenTab s svc = svcAutoSubmitDefault s.serviceSettings svc
    ∧ agentAutoSubmitGate s.aiMode s.serviceSettings s.autoFillEnabled svc
        = AutoSubmitGate.proceed (svcAutoSubmitDefault s.serviceSettings svc)
    ∧ shouldOpenTab { s with autoFillEnabled := x } svc = shouldOpenTab s svc
    ∧ agentAutoSubmitGate s.aiMode s.serviceSettings x svc
        = agentAutoSubmitGate s.aiMode s.serviceSettings s.autoFillEnabled svc := by
  have hmain : shouldOpenTab s svc = svcAutoSubmitDefault s.serviceSettings svc := by
    unfold shouldOpenTab svcAutoSubmitDefault
    rw [if_pos h]
    rcases s.serviceSettings with _ | f
    · rfl
    · rcases hf : f svc with _ | v
      · simp [hf]
      · rcases v with m | ⟨m, p, a⟩
        · simp [hf]
        · rcases a with _ | b <;> simp [hf]
  have hgate : ∀ e : Option Bool,
      agentAutoSubmitGate s.aiMode s.serviceSettings e svc
        = AutoSubmitGate.proceed (svcAutoSubmitDefault s.serviceSettings svc) := by
    intro e
    unfold agentAutoSubmitGate svcAutoSubmitDefault
    rw [if_pos h]
  have hupd : shouldOpenTab { s with autoFillEnabled := x } svc = shouldOpenTab s svc := by
    have h2 : ({ s with autoFillEnabled := x } : BridgeSettings).aiMode = some "custom" := h
    unfold shouldOpenTab
    rw [if_pos h, if_pos h2]
  exact ⟨hmain, hgate s.autoFillEnabled, hupd, by rw [hgate x, hgate s.autoFillEnabled]⟩

/-- Witness for C1: a concrete custom-mode settings record with
`autoSubmit = false` for `youtube`, flipping `autoFillEnabled`. -/
theorem custom_mode_isolation_witness :
    (BridgeSettings.mk (some "custom") none
        (some (fun svc => if svc = "youtube"
          then some (ServiceVal.obj (some "gemini") none (some false)) else none))
        (some true) (fun _ => none)).aiMode = some "custom"
    ∧ (shouldOpenTab
        (BridgeSettings.mk (some "custom") none
          (some (fun svc => if svc = "youtube"
            then some (ServiceVal.obj (some "gemini") none (some false)) else none))
          (some true) (fun _ => none)) "youtube"
        = svcAutoSubmitDefault
            (some (fun svc => if svc = "youtube"
              then some (ServiceVal.obj (some "gemini") none (some false)) else none)) "youtube"
      ∧ agentAutoSubmitGate (some "custom")
          (some (fun svc => if svc = "youtube"
            then some (ServiceVal.obj (some "gemini") none (some false)) else none))
          (some true) "youtube"
          = AutoSubmitGate.proceed
              (svcAutoSubmitDefault
                (some (fun svc => if svc = "youtube"
                  then some (ServiceVal.obj (some "gemini") none (some false)) else none)) "youtube")
      ∧ shouldOpenTab
          { BridgeSettings.mk (some "custom") none
              (some (fun svc => if svc = "youtube"
                then some (ServiceVal.obj (some "gemini") none (some false)) else none))
              (some true) (fun _ => none) with autoFillEnabled := some false } "youtube"
          = shouldOpenTab
              (BridgeSettings.mk (some "custom") none
                (some (fun svc => if svc = "youtube"
                  then some (ServiceVal.obj (some "gemini") none (some false)) else none))
                (some true) (fun _ => none)) "youtube"
      ∧ agentAutoSubmitGate (some "custom")
          (some (fun svc => if svc = "youtube"
            then some (ServiceVal.obj (some "gemini") none (some false)) else none))
          (some false) "youtube"
          = agentAutoSubmitGate (some "custom")
              (some (fun svc => if svc = "youtube"
                then some (ServiceVal.obj (some "gemini") none (some false)) else none))
              (some true) "youtube") :=
  ⟨rfl,
   custom_mode_isolation
     (BridgeSettings.mk (some "custom") none
       (some (fun svc => if svc = "youtube"
         then some (ServiceVal.obj (some "gemini") none (some false)) else none))
       (some true) (fun _ => none)) "youtube" (some false) rfl⟩

theorem defaultUrl_ne_empty (model : String) :
    jsOrStr (DEFAULT_AI_URLS model) (jsOrStr (DEFAULT_AI_URLS "chatgpt") "") ≠ "" := by
  unfold jsOrStr DEFAULT_AI_URLS
  split
  · split <;> simp_all
  · simp_all

theorem getTargetUrl_ne_empty (s : BridgeSettings) (svc : String) :
    getTargetUrl s svc ≠ "" := by
  unfold getTargetUrl
  rcases hu : s.urlOverride (getActiveModel s svc ++ "Url") with _ | u
  · simp only [hu]
    exact defaultUrl_ne_empty _
  · simp only [hu]
    by_cases he : u = ""
    · rw [if_pos he]
      exact defaultUrl_ne_empty _
    · rw [if_neg he]
      exact he

/-- C2 — Hand-off atomicity of `AIBridge.execute`: when the hand-off
is disabled it returns not-opened with no storage write and no tab
open; when enabled it first persists the pending record and then opens
the resolved URL, returning opened; in particular global mode with
`autoFillEnabled = false` produces no effect at all. -/
theorem execute_handoff_atomicity (prompt : String) (s : BridgeSettings) (svc : String) :
    (shouldOpenTab s svc = false → AIBridge_execute prompt s svc = (false, []))
    ∧ (shouldOpenTab s svc = true →
        AIBridge_execute prompt s svc
          = (true, [BridgeEffect.setPending prompt svc,
                    BridgeEffect.openTab (getTargetUrl s svc)]))
    ∧ (s.aiMode = some "global" → s.autoFillEnabled = some false →
        AIBridge_execute prompt s svc = (false, [])) := by
  refine ⟨?_, ?_, ?_⟩
  · intro hd
    unfold AIBridge_execute
    rw [hd]
    rfl
  · intro hd
    unfold AIBridge_execute
    rw [hd]
    simp only [Bool.true_eq_false, if_false, if_neg (getTargetUrl_ne_empty s svc)]
  · intro hmode hflag
    have hd : shouldOpenTab s svc = false := by
      unfold shouldOpenTab
      rw [if_neg (by rw [hmode]; intro hcontra; exact absurd (Option.some.inj hcontra) (by decide)),
          if_pos hflag]
    unfold AIBridge_execute
    rw [hd]
    rfl

/-- Witness for C2: global mode with auto-fill disabled — no pending
write, no tab; and the same record with the flag on — write then open. -/
theorem execute_handoff_atomicity_witness :
    (shouldOpenTab (BridgeSettings.mk (some "global") (some "gemini") none (some false)
        (fun _ => none)) "youtube" = false →
      AIBridge_execute "P" (BridgeSettings.mk (some "global") (some "gemini") none (some false)
        (fun _ => none)) "youtube" = (false, []))
    ∧ (shouldOpenTab (BridgeSettings.mk (some "global") (some "gemini") none (some false)
        (fun _ => none)) "youtube" = true →
      AIBridge_execute "P" (BridgeSettings.mk (some "global") (some "gemini") none (some false)
        (fun _ => none)) "youtube"
        = (true, [BridgeEffect.setPending "P" "youtube",
                  BridgeEffect.openTab (getTargetUrl
                    (BridgeSettings.mk (some "global") (some "gemini") none (some false)
                      (fun _ => none)) "youtube")]))
    ∧ ((BridgeSettings.mk (some "global") (some "gemini") none (some false)
        (fun _ => none)).aiMode = some "global" →
       (BridgeSettings.mk (some "global") (some "gemini") none (some false)
        (fun _ => none)).autoFillEnabled = some false →
      AIBridge_execute "P" (BridgeSettings.mk (some "global") (some "gemini") none (some false)
        (fun _ => none)) "youtube" = (false, [])) :=
  execute_handoff_atomicity "P"
    (BridgeSettings.mk (some "global") (some "gemini") none (some false) (fun _ => none))
    "youtube"

/-- C8 — Pending-record consumption: in every provider fill function,
whenever the prompt is injected the pending record is removed
immediately afterwards, and no auto-submit attempt ever precedes the
removal — so the record is gone regardless of whether the send-control
click succeeds. -/
theorem pending_cleared_after_injection (prompt : String) (autoSub : Bool) (env : ProviderEnv) :
    (clearedRightAfterInject (autoFillGemini prompt autoSub env) = true
      ∧ removeBeforeSubmit (autoFillGemini prompt autoSub env) = true)
    ∧ (clearedRightAfterInject (autoFillGrok prompt autoSub env) = true
      ∧ removeBeforeSubmit (autoFillGrok prompt autoSub env) = true)
    ∧ (clearedRightAfterInject (autoFillChatGPT prompt autoSub env) = true
      ∧ removeBeforeSubmit (autoFillChatGPT prompt autoSub env) = true)
    ∧ (clearedRightAfterInject (autoFillClaude prompt autoSub env) = true
      ∧ removeBeforeSubmit (autoFillClaude prompt autoSub env) = true) := by
  rcases env with ⟨f, ce, ta, pm, sf⟩
  cases f <;> cases ce <;> cases ta <;> cases pm <;> cases autoSub <;>
    simp [autoFillGemini, autoFillGrok, autoFillChatGPT, autoFillClaude,
          afterInjectTail, clearedRightAfterInject, removeBeforeSubmit]

/-- C10 counterexample — the claim fails as stated: with a pending
prompt, global mode and `autoFillEnabled = false`, on a page whose
hostname matches none of the four providers, the agent nevertheless
deletes the pending record (the global-disabled early exit clears it
before provider detection). -/
theorem stale_pending_counterexample :
    (AgentStorage.mk (some "p") (some "youtube") (some false) (some "global")
        none).pendingPrompt = some "p"
    ∧ strContains "example.com" "gemini.google.com" = false
    ∧ strContains "example.com" "grok.com" = false
    ∧ strContains "example.com" "chatgpt.com" = false
    ∧ strContains "example.com" "claude.ai" = false
    ∧ (autoFillMain
        (AgentStorage.mk (some "p") (some "youtube") (some false) (some "global") none)
        (AgentPage.mk "example.com"
          (ProviderEnv.mk false false false false false))).1.pendingPrompt = none := by
  refine ⟨rfl, by decide, by decide, by decide, by decide, ?_⟩
  rfl

theorem removePending_not_mem_applyAgentTrace (st : AgentStorage) (t : List AgEff)
    (h : AgEff.removePending ∉ t) : applyAgentTrace st t = st := by
  unfold applyAgentTrace
  rw [if_neg h]

/-- C10 amended — stale pending record on fill failure: provided the
run is not the global-mode auto-fill-disabled early exit (which clears
the record before provider detection), a pending record survives both
an unknown hostname and a provider input widget that is not found
within the element-wait timeout, so a later provider-page load can
retry the fill. -/
theorem stale_pending_on_fill_failure (st : AgentStorage) (page : AgentPage) (prompt : String)
    (hp : st.pendingPrompt = some prompt)
    (hgate : st.aiMode = some "custom" ∨ st.autoFillEnabled ≠ some false)
    (hfail : (strContains page.hostname "gemini.google.com" = false
              ∧ strContains page.hostname "grok.com" = false
              ∧ strContains page.hostname "chatgpt.com" = false
              ∧ strContains page.hostname "claude.ai" = false)
             ∨ page.env.inputFound = false) :
    (autoFillMain st page).1 = st := by
  obtain ⟨b, hb⟩ : ∃ b,
      agentAutoSubmitGate st.aiMode st.serviceSettings st.autoFillEnabled
        (jsOrStr st.pendingSource "youtube") = AutoSubmitGate.proceed b := by
    unfold agentAutoSubmitGate
    by_cases hc : st.aiMode = some "custom"
    · exact ⟨_, by rw [if_pos hc]⟩
    · rcases hgate with hg | hg
      · exact absurd hg hc
      · exact ⟨true, by rw [if_neg hc, if_neg hg]⟩
  unfold autoFillMain
  rw [hp]
  simp only [hb]
  rcases hfail with ⟨h1, h2, h3, h4⟩ | hin
  · simp only [h1, h2, h3, h4, Bool.false_eq_true, if_false]
  · by_cases hg1 : strContains page.hostname "gemini.google.com" = true
    · simp only [hg1, if_true]
      rw [removePending_not_mem_applyAgentTrace]
      unfold autoFillGemini
      rw [if_pos hin]
      decide
    · rw [if_neg (by simpa using hg1)]
      by_cases hg2 : strContains page.hostname "grok.com" = true
      · simp only [hg2, if_true]
        rw [removePending_not_mem_applyAgentTrace]
        unfold autoFillGrok
        rw [if_pos hin]
        decide
      · rw [if_neg (by simpa using hg2)]
        by_cases hg3 : strContains page.hostname "chatgpt.com" = true
        · simp only [hg3, if_true]
          rw [removePending_not_mem_applyAgentTrace]
          unfold autoFillChatGPT
          rw [if_pos hin]
          decide
        · rw [if_neg (by simpa using hg3)]
          by_cases hg4 : strContains page.hostname "claude.ai" = true
          · simp only [hg4, if_true]
            rw [removePending_not_mem_applyAgentTrace]
            unfold autoFillClaude
            rw [if_pos hin]
            decide
          · rw [if_neg (by simpa using hg4)]

/-- Witness for the amended C10: custom mode, pending record present,
unknown hostname — the storage is unchanged. -/
theorem stale_pending_on_fill_failure_witness :
    (AgentStorage.mk (some "p") (some "youtube") (some true) (some "custom")
        none).pendingPrompt = some "p"
    ∧ (autoFillMain
        (AgentStorage.mk (some "p") (some "youtube") (some true) (some "custom") none)
        (AgentPage.mk "example.com" (ProviderEnv.mk false false false false false))).1
      = AgentStorage.mk (some "p") (some "youtube") (some true) (some "custom") none :=
  ⟨rfl,
   stale_pending_on_fill_failure
     (AgentStorage.mk (some "p") (some "youtube") (some true) (some "custom") none)
     (AgentPage.mk "example.com" (ProviderEnv.mk false false false false false))
     "p" rfl (Or.inl rfl)
     (Or.inl ⟨by decide, by decide, by decide, by decide⟩)⟩

theorem migrateServiceVal_promptId (v : Option ServiceVal) (tp : String) (da : Bool) :
    (migrateServiceVal v tp da).promptId = tp := rfl

/-- C3 counterexample — the claim fails as stated: a legacy record
whose `customPrompt` is the empty string trim-differs from the
built-in default content, yet migration appends no extra prompt entry
(the `||` default substitutes the default content for the falsy empty
string). -/
theorem migration_counterexample :
    jsTrim "" ≠ jsTrim DEFAULT_PROMPT_CONTENT
    ∧ (OldData.mk none none none none none none none (some "") none).customPrompt = some ""
    ∧ (migrateSettings (OldData.mk none none none none none none none (some "") none)
        "abcdefgh").prompts = [defaultPromptEntry] := by
  refine ⟨by decide, rfl, ?_⟩
  decide

/-- C3 amended — Schema migration correctness: for every legacy record
lacking `prompts`, the migrated prompt list starts with the built-in
`default` entry; when the legacy `customPrompt` is present, non-empty
(the code treats an empty string as unset) and trim-differs from the
default content, exactly one migrated entry is appended and all four
service mappings reference it; when the (defaulted) legacy content
trim-equals the default, the list is exactly the default entry and all
mappings reference `default`; and every previously-set scalar among
`aiMode`, `selectedModel`, `geminiUrl`, `theme`, `copyFormat`,
`showButton`, `autoFillEnabled` is preserved unchanged. -/
theorem migration_correctness (old : OldData) (idSeed : String) :
    ((migrateSettings old idSeed).prompts.head? = some defaultPromptEntry)
    ∧ (∀ c, old.customPrompt = some c → c ≠ "" → jsTrim c ≠ jsTrim DEFAULT_PROMPT_CONTENT →
        (migrateSettings old idSeed).prompts
          = [defaultPromptEntry,
             PromptEntry.mk ("legacy-prompt-" ++ jsTake idSeed 8) "My Custom Prompt"
               "Migrated from previous version" c]
        ∧ (migrateSettings old idSeed).serviceSettings.youtube.promptId
            = "legacy-prompt-" ++ jsTake idSeed 8
        ∧ (migrateSettings old idSeed).serviceSettings.udemy.promptId
            = "legacy-prompt-" ++ jsTake idSeed 8
        ∧ (migrateSettings old idSeed).serviceSettings.coursera.promptId
            = "legacy-prompt-" ++ jsTake idSeed 8
        ∧ (migrateSettings old idSeed).serviceSettings.datacamp.promptId
            = "legacy-prompt-" ++ jsTake idSeed 8)
    ∧ (jsTrim (jsOrStr old.customPrompt DEFAULT_PROMPT_CONTENT) = jsTrim DEFAULT_PROMPT_CONTENT →
        (migrateSettings old idSeed).prompts = [defaultPromptEntry]
        ∧ (migrateSettings old idSeed).serviceSettings.youtube.promptId = "default"
        ∧ (migrateSettings old idSeed).serviceSettings.udemy.promptId = "default"
        ∧ (migrateSettings old idSeed).serviceSettings.coursera.promptId = "default"
        ∧ (migrateSettings old idSeed).serviceSettings.datacamp.promptId = "default")
    ∧ ((∀ v, old.aiMode = some v → (migrateSettings old idSeed).aiMode = v)
      ∧ (∀ v, old.selectedModel = some v → (migrateSettings old idSeed).selectedModel = v)
      ∧ (∀ v, old.geminiUrl = some v → (migrateSettings old idSeed).geminiUrl = v)
      ∧ (∀ v, old.theme = some v → (migrateSettings old idSeed).theme = v)
      ∧ (∀ v, old.copyFormat = some v → (migrateSettings old idSeed).copyFormat = v)
      ∧ (∀ v, old.showButton = some v → (migrateSettings old idSeed).showButton = v)
      ∧ (∀ v, old.autoFillEnabled = some v → (migrateSettings old idSeed).autoFillEnabled = v)) := by
  refine ⟨?_, ?_, ?_, ?_⟩
  · unfold migrateSettings
    dsimp only
    split <;> rfl
  · intro c h1 h2 h3
    have hcontent : jsOrStr old.customPrompt DEFAULT_PROMPT_CONTENT = c := by
      rw [h1]
      simp [jsOrStr, h2]
    unfold migrateSettings
    dsimp only
    rw [hcontent, if_pos h3, if_pos h3]
    exact ⟨rfl, rfl, rfl, rfl, rfl⟩
  · intro htrim
    unfold migrateSettings
    dsimp only
    rw [if_neg (by simpa using htrim), if_neg (by simpa using htrim)]
    exact ⟨rfl, rfl, rfl, rfl, rfl⟩
  · refine ⟨?_, ?_, ?_, ?_, ?_, ?_, ?_⟩ <;>
      (intro v hv; unfold migrateSettings; dsimp only; rw [hv]; rfl)

/-- Witness for the amended C3: a legacy record with a distinct custom
prompt and `theme = dark`; the migrated record appends the legacy
entry, points every service at it, and keeps the theme. -/
theorem migration_correctness_witness :
    ((migrateSettings
        (OldData.mk none none none (some "dark") none none none (some "My prompt") none)
        "abcdefgh").prompts.head? = some defaultPromptEntry)
    ∧ ((OldData.mk none none none (some "dark") none none none (some "My prompt") none).customPrompt
        = some "My prompt")
    ∧ ("My prompt" : String) ≠ ""
    ∧ jsTrim "My prompt" ≠ jsTrim DEFAULT_PROMPT_CONTENT
    ∧ (migrateSettings
        (OldData.mk none none none (some "dark") none none none (some "My prompt") none)
        "abcdefgh").prompts
        = [defaultPromptEntry,
           PromptEntry.mk ("legacy-prompt-" ++ jsTake "abcdefgh" 8) "My Custom Prompt"
             "Migrated from previous version" "My prompt"]
    ∧ (migrateSettings
        (OldData.mk none none none (some "dark") none none none (some "My prompt") none)
        "abcdefgh").serviceSettings.youtube.promptId = "legacy-prompt-" ++ jsTake "abcdefgh" 8
    ∧ (migrateSettings
        (OldData.mk none none none (some "dark") none none none (some "My prompt") none)
        "abcdefgh").theme = "dark" := by
  have h := migration_correctness
    (OldData.mk none none none (some "dark") none none none (some "My prompt") none) "abcdefgh"
  have h2 := h.2.1 "My prompt" rfl (by decide) (by decide)
  refine ⟨h.1, rfl, by decide, by decide, ?_, ?_, ?_⟩
  · simpa using h2.1
  · simpa using h2.2.1
  · exact h.2.2.2.2.2.2.1 "dark" rfl

/-- C4 — Prompt-library non-emptiness invariant of `deletePrompt`:
with a sole remaining template the deletion is rejected and nothing
changes; a confirmed deletion of a non-sole template removes exactly
the entries with the selected id (at least one template survives when
ids are distinct, as the UI guarantees), and each service mapping is
reset to `default` exactly when it referenced the deleted id. -/
theorem deletePrompt_invariant (prompts : List PromptEntry) (svc : ServiceMap NewServiceSetting)
    (sel : String) (confirmAnswer : Bool)
    (hnodup : (prompts.map PromptEntry.id).Nodup) :
    (prompts.length = 1 →
      deletePrompt prompts svc (some sel) confirmAnswer
        = (DeleteOutcome.rejectedSole, prompts, svc))
    ∧ (1 < prompts.length → confirmAnswer = true →
        (deletePrompt prompts svc (some sel) confirmAnswer).2.1
            = prompts.filter (fun p => p.id ≠ sel)
        ∧ (deletePrompt prompts svc (some sel) confirmAnswer).2.1 ≠ []
        ∧ (∀ p ∈ (deletePrompt prompts svc (some sel) confirmAnswer).2.1, p.id ≠ sel)
        ∧ (∀ p ∈ prompts, p.id ≠ sel →
            p ∈ (deletePrompt prompts svc (some sel) confirmAnswer).2.1)
        ∧ (deletePrompt prompts svc (some sel) confirmAnswer).2.2
            = ServiceMap.mk (resetMapping sel svc.youtube) (resetMapping sel svc.udemy)
                (resetMapping sel svc.coursera) (resetMapping sel svc.datacamp))
    ∧ (∀ m : NewServiceSetting,
        (m.promptId = sel → resetMapping sel m = { m with promptId := "default" })
        ∧ (m.promptId ≠ sel → resetMapping sel m = m)) := by
  refine ⟨?_, ?_, ?_⟩
  · intro hone
    unfold deletePrompt
    dsimp only
    rw [if_pos (by omega)]
  · intro hlen hconf
    have hdel : deletePrompt prompts svc (some sel) confirmAnswer
        = (DeleteOutcome.deleted,
           prompts.filter (fun p => p.id ≠ sel),
           ServiceMap.mk (resetMapping sel svc.youtube) (resetMapping sel svc.udemy)
             (resetMapping sel svc.coursera) (resetMapping sel svc.datacamp)) := by
      unfold deletePrompt
      dsimp only
      rw [if_neg (by omega), if_neg (by simp [hconf])]
    rw [hdel]
    refine ⟨rfl, ?_, ?_, ?_, rfl⟩
    · intro hempty
      simp only [List.filter_eq_nil_iff] at hempty
      rcases prompts with _ | ⟨a, rest⟩
      · simp at hlen
      · rcases rest with _ | ⟨b, rest2⟩
        · simp at hlen
        · have ha : a.id = sel := by
            have := hempty a (List.mem_cons_self _ _)
            simpa using this
          have hb : b.id = sel := by
            have := hempty b (List.mem_cons_of_mem _ (List.mem_cons_self _ _))
            simpa using this
          simp only [List.map_cons, List.nodup_cons] at hnodup
          exact hnodup.1 (by rw [ha, hb]; exact List.mem_cons_self _ _)
    · intro p hp
      have := List.of_mem_filter hp
      simpa using this
    · intro p hp hne
      exact List.mem_filter.mpr ⟨hp, by simpa using hne⟩
  · intro m
    constructor
    · intro hm
      unfold resetMapping
      rw [if_pos hm]
    · intro hm
      unfold resetMapping
      rw [if_neg hm]

/-- Witness for C4: with the library `[default, extra]` and the
youtube mapping referencing `extra`, deleting `extra` keeps `default`
and resets the mapping; with `[default]` alone, deleting is rejected. -/
theorem deletePrompt_invariant_witness :
    ((([defaultPromptEntry, PromptEntry.mk "extra" "E" "" "body"] :
        List PromptEntry).map PromptEntry.id).Nodup)
    ∧ (1 < ([defaultPromptEntry, PromptEntry.mk "extra" "E" "" "body"] :
        List PromptEntry).length)
    ∧ (deletePrompt [defaultPromptEntry, PromptEntry.mk "extra" "E" "" "body"]
        (ServiceMap.mk (NewServiceSetting.mk "chatgpt" "extra" true)
          (NewServiceSetting.mk "chatgpt" "default" true)
          (NewServiceSetting.mk "chatgpt" "default" true)
          (NewServiceSetting.mk "chatgpt" "default" true))
        (some "extra") true).2.1
      = ([defaultPromptEntry, PromptEntry.mk "extra" "E" "" "body"] :
          List PromptEntry).filter (fun p => p.id ≠ "extra")
    ∧ (deletePrompt [defaultPromptEntry, PromptEntry.mk "extra" "E" "" "body"]
        (ServiceMap.mk (NewServiceSetting.mk "chatgpt" "extra" true)
          (NewServiceSetting.mk "chatgpt" "default" true)
          (NewServiceSetting.mk "chatgpt" "default" true)
          (NewServiceSetting.mk "chatgpt" "default" true))
        (some "extra") true).2.1 ≠ []
    ∧ ([defaultPromptEntry] : List PromptEntry).length = 1
    ∧ deletePrompt [defaultPromptEntry]
        (ServiceMap.mk (NewServiceSetting.mk "chatgpt" "default" true)
          (NewServiceSetting.mk "chatgpt" "default" true)
          (NewServiceSetting.mk "chatgpt" "default" true)
          (NewServiceSetting.mk "chatgpt" "default" true))
        (some "default") true
      = (DeleteOutcome.rejectedSole, [defaultPromptEntry],
         ServiceMap.mk (NewServiceSetting.mk "chatgpt" "default" true)
          (NewServiceSetting.mk "chatgpt" "default" true)
          (NewServiceSetting.mk "chatgpt" "default" true)
          (NewServiceSetting.mk "chatgpt" "default" true)) := by
  have h2 := (deletePrompt_invariant [defaultPromptEntry, PromptEntry.mk "extra" "E" "" "body"]
    (ServiceMap.mk (NewServiceSetting.mk "chatgpt" "extra" true)
      (NewServiceSetting.mk "chatgpt" "default" true)
      (NewServiceSetting.mk "chatgpt" "default" true)
      (NewServiceSetting.mk "chatgpt" "default" true))
    "extra" true (by decide)).2.1 (by decide) rfl
  have h1 := (deletePrompt_invariant [defaultPromptEntry]
    (ServiceMap.mk (NewServiceSetting.mk "chatgpt" "default" true)
      (NewServiceSetting.mk "chatgpt" "default" true)
      (NewServiceSetting.mk "chatgpt" "default" true)
      (NewServiceSetting.mk "chatgpt" "default" true))
    "default" true (by decide)).1 (by decide)
  exact ⟨by decide, by decide, h2.1, h2.2.1, by decide, h1⟩

theorem indexItems_sortedB (l : List YtRaw) :
    ∀ i, List.Sorted ytStartLe l → sortedByStartB (indexItems i l) = true := by
  induction l with
  | nil => intro i h; rfl
  | cons r rest ih =>
    intro i h
    rcases rest with _ | ⟨r2, rest2⟩
    · rfl
    · have h1 : ytStartLe r r2 := (List.sorted_cons.mp h).1 r2 (List.mem_cons_self _ _)
      have h2 : List.Sorted ytStartLe (r2 :: rest2) := (List.sorted_cons.mp h).2
      have ih2 := ih (i + 1) h2
      simp only [indexItems] at ih2 ⊢
      rw [sortedByStartB, ih2, Bool.and_true]
      simp only [itemStartNat, interpNat_natToStr]
      exact decide_eq_true h1

/-- C6 counterexample — the claim fails as stated for the Udemy
extractor: two cues whose timestamps arrive out of DOM order produce
starts `[60, 10]`, which is not sorted (the Udemy scraper never
sorts). -/
theorem extractor_sorted_counterexample :
    (getRawUdemyTranscriptFromDom
      [UdemyCue.mk none none none (some "1:00") (some "b") "",
       UdemyCue.mk none none none (some "0:10") (some "a") ""]).map TranscriptItem.start
      = ["60", "10"]
    ∧ sortedByStartB (getRawUdemyTranscriptFromDom
      [UdemyCue.mk none none none (some "1:00") (some "b") "",
       UdemyCue.mk none none none (some "0:10") (some "a") ""]) = false := by
  exact ⟨by decide, by decide⟩

/-- C6 amended — Output ordering: the YouTube extractor's output is
sorted non-decreasing by the derived start-offset-in-seconds for every
DOM input (it sorts after deduplication); the Udemy, Coursera and
DataCamp extractors emit items in DOM order and give no such
guarantee. -/
theorem youtube_output_sorted (segs : List YtSegment) :
    sortedByStartB (getRawTranscriptFromDom segs) = true := by
  unfold getRawTranscriptFromDom
  exact indexItems_sortedB _ 0 (List.sorted_insertionSort ytStartLe _)

theorem ytSeenStep_key_eq (acc : List (String × YtRaw)) (seg : YtSegment)
    (h : ∀ p ∈ acc, p.1 = ytKey p.2.timestamp p.2.text) :
    ∀ p ∈ ytSeenStep acc seg, p.1 = ytKey p.2.timestamp p.2.text := by
  intro p hp
  unfold ytSeenStep at hp
  dsimp only at hp
  split at hp
  · exact h p hp
  · split at hp
    · exact h p hp
    · rcases List.mem_append.mp hp with hin | hone
      · exact h p hin
      · simp only [List.mem_singleton] at hone
        subst hone
        rfl

theorem ytSeenFold_key_eq (segs : List YtSegment) :
    ∀ acc, (∀ p ∈ acc, p.1 = ytKey p.2.timestamp p.2.text) →
      ∀ p ∈ segs.foldl ytSeenStep acc, p.1 = ytKey p.2.timestamp p.2.text := by
  induction segs with
  | nil => intro acc h; simpa using h
  | cons seg rest ih =>
    intro acc h
    simp only [List.foldl_cons]
    exact ih _ (ytSeenStep_key_eq acc seg h)

theorem ytSeenStep_nodup (acc : List (String × YtRaw)) (seg : YtSegment)
    (h : (acc.map Prod.fst).Nodup) : ((ytSeenStep acc seg).map Prod.fst).Nodup := by
  unfold ytSeenStep
  dsimp only
  split
  · exact h
  · split
    · exact h
    · rename_i hmem
      rw [List.map_append, List.nodup_append]
      refine ⟨h, List.nodup_singleton _, fun x hx hx2 => ?_⟩
      simp only [List.map_cons, List.map_nil, List.mem_singleton] at hx2
      subst hx2
      exact hmem hx

theorem ytSeenFold_nodup (segs : List YtSegment) :
    ∀ acc, (acc.map Prod.fst).Nodup →
      ((segs.foldl ytSeenStep acc).map Prod.fst).Nodup := by
  induction segs with
  | nil => intro acc h; simpa using h
  | cons seg rest ih =>
    intro acc h
    simp only [List.foldl_cons]
    exact ih _ (ytSeenStep_nodup acc seg h)

theorem ytSeenStep_mem (acc : List (String × YtRaw)) (seg : YtSegment) (k : String) :
    k ∈ (ytSeenStep acc seg).map Prod.fst ↔
      k ∈ acc.map Prod.fst ∨ ytSegKey seg = some k := by
  unfold ytSeenStep ytSegKey
  dsimp only
  split
  · simp
  · rename_i hne
    split
    · rename_i hmem
      constructor
      · intro hk
        exact Or.inl hk
      · rintro (hk | hk)
        · exact hk
        · rw [Option.some.injEq] at hk
          rw [hk] at hmem
          exact hmem
    · rename_i hmem
      rw [List.map_append]
      simp only [List.mem_append, List.map_cons, List.map_nil, List.mem_singleton]
      constructor
      · rintro (hk | hk)
        · exact Or.inl hk
        · exact Or.inr (by rw [hk])
      · rintro (hk | hk)
        · exact Or.inl hk
        · exact Or.inr (Option.some.inj hk).symm

theorem ytSeenFold_mem (segs : List YtSegment) :
    ∀ acc (k : String), k ∈ (segs.foldl ytSeenStep acc).map Prod.fst ↔
      k ∈ acc.map Prod.fst ∨ ∃ seg ∈ segs, ytSegKey seg = some k := by
  induction segs with
  | nil => intro acc k; simp
  | cons seg rest ih =>
    intro acc k
    simp only [List.foldl_cons]
    rw [ih]
    rw [ytSeenStep_mem]
    constructor
    · rintro ((hk | hk) | ⟨s, hs, hsk⟩)
      · exact Or.inl hk
      · exact Or.inr ⟨seg, List.mem_cons_self _ _, hk⟩
      · exact Or.inr ⟨s, List.mem_cons_of_mem _ hs, hsk⟩
    · rintro (hk | ⟨s, hs, hsk⟩)
      · exact Or.inl (Or.inl hk)
      · rcases List.mem_cons.mp hs with rfl | hs2
        · exact Or.inl (Or.inr hsk)
        · exact Or.inr ⟨s, hs2, hsk⟩

theorem indexItems_map_key (l : List YtRaw) :
    ∀ i, (indexItems i l).map itemKey = l.map (fun r => ytKey r.timestamp r.text) := by
  induction l with
  | nil => intro i; rfl
  | cons r rest ih =>
    intro i
    simp only [indexItems, List.map_cons, ih]
    rfl

/-- C7 counterexample — the claim fails as stated for the Coursera
extractor: two identical paragraphs (same timestamp, same text, hence
the same (timestamp, text-prefix) pair) yield two output items, not
one (the Coursera scraper never deduplicates). -/
theorem extractor_dedup_counterexample :
    (getRawCourseraTranscriptFromDom
      [CourseraParagraph.mk (some "0:04") [CourseraPhrase.mk (some "hello") "hello"],
       CourseraParagraph.mk (some "0:04") [CourseraPhrase.mk (some "hello") "hello"]]).length = 2
    ∧ ((getRawCourseraTranscriptFromDom
        [CourseraParagraph.mk (some "0:04") [CourseraPhrase.mk (some "hello") "hello"],
         CourseraParagraph.mk (some "0:04") [CourseraPhrase.mk (some "hello") "hello"]]).map
          itemKey).Nodup = False := by
  refine ⟨by decide, ?_⟩
  simp only [eq_iff_iff, iff_false]
  decide

/-- C7 amended — Deduplication: the YouTube extractor produces exactly
one transcript item per unique (timestamp, first-50-characters) pair
occurring among the non-empty-text input segments (keys are pairwise
distinct, and every input pair is represented); the Udemy, Coursera
and DataCamp extractors do not deduplicate. -/
theorem youtube_dedup (segs : List YtSegment) :
    ((getRawTranscriptFromDom segs).map itemKey).Nodup
    ∧ ∀ seg ∈ segs, ∀ k, ytSegKey seg = some k →
        k ∈ (getRawTranscriptFromDom segs).map itemKey := by
  have hkeys : (getRawTranscriptFromDom segs).map itemKey
      = (List.insertionSort ytStartLe ((ytSeenFold segs).map Prod.snd)).map
          (fun r => ytKey r.timestamp r.text) := by
    unfold getRawTranscriptFromDom
    exact indexItems_map_key _ 0
  have hsndfst : ((ytSeenFold segs).map Prod.snd).map (fun r => ytKey r.timestamp r.text)
      = (ytSeenFold segs).map Prod.fst := by
    rw [List.map_map]
    apply List.map_congr_left
    intro p hp
    exact (ytSeenFold_key_eq segs [] (by simp) p hp).symm
  have hperm : ((getRawTranscriptFromDom segs).map itemKey).Perm
      ((ytSeenFold segs).map Prod.fst) := by
    rw [hkeys, ← hsndfst]
    exact (List.perm_insertionSort ytStartLe _).map _
  constructor
  · exact hperm.nodup_iff.mpr (ytSeenFold_nodup segs [] (by simp))
  · intro seg hseg k hk
    rw [hperm.mem_iff]
    exact (ytSeenFold_mem segs [] k).mpr (Or.inr ⟨seg, hseg, hk⟩)

/-- Witness for the amended C7: three segments, two of them identical;
the duplicated pair's key appears in the output. -/
theorem youtube_dedup_witness :
    (YtSegment.mk (some "0:01") (some "a"))
      ∈ [YtSegment.mk (some "0:01") (some "a"), YtSegment.mk (some "0:01") (some "a"),
         YtSegment.mk (some "0:02") (some "b")]
    ∧ ytSegKey (YtSegment.mk (some "0:01") (some "a")) = some "0:01|a"
    ∧ "0:01|a" ∈ ((getRawTranscriptFromDom
        [YtSegment.mk (some "0:01") (some "a"), YtSegment.mk (some "0:01") (some "a"),
         YtSegment.mk (some "0:02") (some "b")]).map itemKey) :=
  ⟨by decide, by decide,
   (youtube_dedup
      [YtSegment.mk (some "0:01") (some "a"), YtSegment.mk (some "0:01") (some "a"),
       YtSegment.mk (some "0:02") (some "b")]).2
     (YtSegment.mk (some "0:01") (some "a")) (by decide) "0:01|a" (by decide)⟩

theorem scrollRun_le (env : ScrollEnv) :
    ∀ (fuel : Nat) (st : ScrollSt) (iters : Nat),
      (scrollRun env st iters fuel).1 ≤ iters + fuel := by
  intro fuel
  induction fuel with
  | zero => intro st iters; simp [scrollRun]
  | succ f ih =>
    intro st iters
    rw [scrollRun]
    rcases hstep : scrollStep env iters st with ⟨brk, st2⟩
    cases brk
    · simp only
      have := ih st2 (iters + 1)
      omega
    · simp only
      omega

theorem scrollStep_const (env : ScrollEnv) (h : Nat)
    (hconst : env.heights = fun _ => h) (hch : h ≤ 2 * env.clientHeight)
    (i : Nat) (st : ScrollSt) (hprev : st.prevHeight = h) :
    scrollStep env i st =
      (if 3 ≤ st.stableRounds + 1 then
        (true, { scrollTop := min (st.scrollTop + env.clientHeight) (h - env.clientHeight),
                 prevHeight := st.prevHeight, stableRounds := st.stableRounds + 1 })
      else
        (false, { scrollTop := min (st.scrollTop + env.clientHeight) (h - env.clientHeight),
                  prevHeight := h, stableRounds := st.stableRounds + 1 })) := by
  have hbot : h ≤ min (st.scrollTop + env.clientHeight) (h - env.clientHeight)
      + env.clientHeight + 20 := by
    rw [Nat.min_def]
    split <;> omega
  unfold scrollStep
  simp only [hconst]
  rw [if_pos hbot, if_pos hprev.symm]

theorem scrollRun_const_exit (env : ScrollEnv) (h : Nat)
    (hconst : env.heights = fun _ => h) (hch : h ≤ 2 * env.clientHeight) :
    ∀ (fuel : Nat) (st : ScrollSt) (iters : Nat), st.prevHeight = h →
      st.stableRounds ≤ 2 → 3 ≤ fuel + st.stableRounds →
      (scrollRun env st iters fuel).1 = iters + (3 - st.stableRounds) := by
  intro fuel
  induction fuel with
  | zero => intro st iters hprev hs2 hf; omega
  | succ f ih =>
    intro st iters hprev hs2 hf
    rw [scrollRun, scrollStep_const env h hconst hch iters st hprev]
    by_cases hs : 3 ≤ st.stableRounds + 1
    · rw [if_pos hs]
      simp only
      omega
    · rw [if_neg hs]
      simp only
      rw [ih _ (iters + 1) rfl (by dsimp only; omega) (by dsimp only; omega)]
      dsimp only
      omega

/-- C9 counterexample — the claim fails as stated: the YouTube
extractor does not scroll before scraping (the source skips the scroll
phase), so on a DOM whose transcript container is empty until scrolled
it returns nothing, while the spec-modelled scroll-first extractor
returns the lazily-loaded segment. -/
theorem youtube_scroll_counterexample :
    ytExtractOnDom (YtDom.mk [] [YtSegment.mk (some "0:01") (some "a")]) = []
    ∧ ytExtractSpecScrollFirst (YtDom.mk [] [YtSegment.mk (some "0:01") (some "a")]) ≠ []
    ∧ ytExtractOnDom (YtDom.mk [] [YtSegment.mk (some "0:01") (some "a")])
        ≠ ytExtractSpecScrollFirst (YtDom.mk [] [YtSegment.mk (some "0:01") (some "a")]) := by
  exact ⟨rfl, by decide, by decide⟩

/-- C9 amended — the scroll routine `scrollToLoadAllSegments` is
defined with exactly the claimed termination behavior: it never
exceeds the 500-iteration hard bound, and once the scroll height is
stable with the container at the bottom (modelled by a constant height
reachable within one viewport) it exits via the three-consecutive-
stable-checks break within at most 4 iterations — but the extractor
`getRawTranscriptFromDom` never invokes it and scrapes the current
segments directly. -/
theorem scroll_loop_termination (env : ScrollEnv) (h : Nat) :
    (scrollToLoadAllSegments env).1 ≤ 500
    ∧ (env.heights = (fun _ => h) → h ≤ 2 * env.clientHeight →
        (scrollToLoadAllSegments env).1 ≤ 4) := by
  constructor
  · have := scrollRun_le env 500 { scrollTop := 0, prevHeight := 0, stableRounds := 0 } 0
    simpa [scrollToLoadAllSegments] using this
  · intro hconst hch
    by_cases hz : h = 0
    · subst hz
      unfold scrollToLoadAllSegments
      rw [scrollRun_const_exit env 0 hconst hch 500
            { scrollTop := 0, prevHeight := 0, stableRounds := 0 } 0 rfl
            (by dsimp only; omega) (by dsimp only; omega)]
      dsimp only
      omega
    · unfold scrollToLoadAllSegments
      rw [show (500 : Nat) = 499 + 1 from rfl, scrollRun]
      have hstep : scrollStep env 0 { scrollTop := 0, prevHeight := 0, stableRounds := 0 }
          = (false, { scrollTop := min (0 + env.clientHeight) (h - env.clientHeight),
                      prevHeight := h, stableRounds := 0 }) := by
        have hbot : h ≤ min (0 + env.clientHeight) (h - env.clientHeight)
            + env.clientHeight + 20 := by
          rw [Nat.min_def]
          split <;> omega
        unfold scrollStep
        simp only [hconst]
        rw [if_pos hbot, if_neg (by simpa using hz)]
      rw [hstep]
      simp only
      rw [scrollRun_const_exit env h hconst hch 499 _ 1 rfl (by dsimp only; omega)
            (by dsimp only; omega)]
      dsimp only
      omega

/-- Witness for the amended C9: a container of height 0 (already fully
loaded): the loop exits after three stable checks, within both bounds. -/
theorem scroll_loop_termination_witness :
    (scrollToLoadAllSegments (ScrollEnv.mk 5 (fun _ => 0))).1 ≤ 500
    ∧ ((ScrollEnv.mk 5 (fun _ => 0)).heights = (fun _ => 0) →
        (0 : Nat) ≤ 2 * (ScrollEnv.mk 5 (fun _ => 0)).clientHeight →
        (scrollToLoadAllSegments (ScrollEnv.mk 5 (fun _ => 0))).1 ≤ 4) :=
  scroll_loop_termination (ScrollEnv.mk 5 (fun _ => 0)) 0
